import Mathlib

/-!
Shallow embedding of `src/Assignment2.py`: a one-shot VTK visualization
script.  The script's own logic — the recursive folder-size scan, the
start-up directory check, the printed dataset report, the literal
transfer-function tables, the label builder and the three-viewport window
with a shared camera — is embedded below; toolkit-computed values (the
DICOM reader's output, the VTK version string) are carried as parameters.
Machine doubles of the source are modelled as exact rationals.
-/

/-- A filesystem entry as seen by the folder scan (`os.walk`): a file whose
size read (`os.path.getsize`) either succeeds with a byte count or fails
with a filesystem access error (`OSError`, modelled as `Except.error ()`),
or a subdirectory with a flag telling whether listing it succeeds
(`os.walk` silently skips a directory it cannot list, since `onerror` is
left as `None`). -/
inductive Entry where
  | file (name : String) (size : Except Unit Nat)
  | dir (name : String) (readable : Bool) (children : List Entry)
deriving Repr

/-- The effect of one loop body of `folder_size_bytes` (lines 10-14):
`total += os.path.getsize(fp)` inside `try`/`except OSError: pass`.  A
failing size read is caught and leaves the running total unchanged. -/
def tryAddSize (total : Nat) (size : Except Unit Nat) : Except Unit Nat :=
  match size with
  | .ok n => .ok (total + n)
  | .error _ => .ok total

/-- The walk loop of `folder_size_bytes` with exception propagation made
explicit: an uncaught exception in the body would abort the whole walk with
`.error`.  Files are visited in order; a readable subdirectory is walked
recursively, an unreadable one contributes nothing. -/
def walkFoldE (total : Nat) : List Entry → Except Unit Nat
  | [] => .ok total
  | .file _ sz :: rest =>
    match tryAddSize total sz with
    | .ok t => walkFoldE t rest
    | .error e => .error e
  | .dir _ r cs :: rest =>
    if r then
      match walkFoldE total cs with
      | .ok t => walkFoldE t rest
      | .error e => .error e
    else walkFoldE total rest

/-- The byte count a single file contributes to the total: its size when
the read succeeds, nothing when the read raises (the `except` arm). -/
def fileContribution (size : Except Unit Nat) : Nat :=
  match size with
  | .ok n => n
  | .error _ => 0

/-- The pure value of the walk: the recursive sum of the readable file
sizes under a list of entries. -/
def walkSum : List Entry → Nat
  | [] => 0
  | .file _ sz :: rest => fileContribution sz + walkSum rest
  | .dir _ r cs :: rest => (if r then walkSum cs else 0) + walkSum rest

/-- What `os.walk(path)` finds at the root path itself: the path may be
missing, may name a regular file, or may be a directory (readable or not)
with its tree of entries.  `os.path.isdir` is true exactly in the last
case. -/
inductive PathStatus where
  | missing
  | regularFile (size : Except Unit Nat)
  | dir (readable : Bool) (entries : List Entry)
deriving Repr

/-- `os.path.isdir(path)` over the modelled root status. -/
def isdir : PathStatus → Bool
  | .dir _ _ => true
  | _ => false

/-- `folder_size_bytes` (lines 6-15) with exceptions explicit: `os.walk`
yields no triples for a missing path, a regular file, or an unreadable
directory (its `onerror` is `None`), so those roots sum to 0; a readable
directory is walked with the per-file `try`/`except`. -/
def folder_size_bytesE (root : PathStatus) : Except Unit Nat :=
  match root with
  | .dir true entries => walkFoldE 0 entries
  | _ => .ok 0

/-- `folder_size_bytes` (lines 6-15) as the pure total it computes. -/
def folder_size_bytes (root : PathStatus) : Nat :=
  match root with
  | .dir true entries => walkSum entries
  | _ => 0

/-- The spec-side reading of the scan: the list of sizes of exactly those
files whose size read succeeds, gathered recursively through readable
directories. -/
def readableSizes : List Entry → List Nat
  | [] => []
  | .file _ (.ok n) :: rest => n :: readableSizes rest
  | .file _ (.error _) :: rest => readableSizes rest
  | .dir _ r cs :: rest => (if r then readableSizes cs else []) ++ readableSizes rest

/-- The hard-coded dataset directory (line 35). -/
def dicom_dir : String := "Skull_Dataset"

/-- The message of the `FileNotFoundError` raised when the dataset
directory is missing (lines 39-42). -/
def missing_dir_msg : String :=
  "Cannot find DICOM directory: '" ++ dicom_dir ++
    "'. Put your DICOM slices inside this folder or update dicom_dir."

/-- The toolkit-derived dataset facts read from the DICOM reader's output
(lines 53-56).  The script only interpolates them into report strings, so
they are carried in display form. -/
structure DatasetInfo where
  dims : String
  spacing : String
  origin : String
  scalarMin : String
  scalarMax : String
deriving Repr

/-- Round `n / d` to the nearest integer, ties to even: the rounding that
fixed-point formatting applies to the nonnegative megabyte value. -/
def roundHalfEven (n d : Nat) : Nat :=
  if 2 * (n % d) < d then n / d
  else if d < 2 * (n % d) then n / d + 1
  else if (n / d) % 2 = 0 then n / d else n / d + 1

/-- `f"{size_mb:.2f}"` for `size_mb = size_bytes / (1024 * 1024)` (lines
58 and 67): the megabyte value rendered with exactly two digits after the
decimal point. -/
def fmtMB2 (size_bytes : Nat) : String :=
  let c := roundHalfEven (size_bytes * 100) (1024 * 1024)
  toString (c / 100) ++ "." ++ (if c % 100 < 10 then "0" else "") ++ toString (c % 100)

/-- The report printed to standard output (lines 62-68): a title line
followed by the six dataset facts. -/
def report (info : DatasetInfo) (size_bytes : Nat) (vtk_version : String) : List String :=
  [ "Dataset Info of Cancer Cell of Brain"
  , "Dimensions (Nx, Ny, Nz): " ++ info.dims
  , "Spacing / Voxel size (sx, sy, sz): " ++ info.spacing
  , "Origin: " ++ info.origin
  , "Scalar range (min, max): (" ++ info.scalarMin ++ ", " ++ info.scalarMax ++ ")"
  , "DICOM folder size: " ++ fmtMB2 size_bytes ++ " MB"
  , "VTK Version: " ++ vtk_version ]

/-- An observable start-up event: raising the fatal error, constructing a
toolkit (VTK) object of a given class, or printing a line. -/
inductive Ev where
  | raiseFileNotFound (msg : String)
  | vtkNew (cls : String)
  | printLine (line : String)
deriving Repr, DecidableEq

/-- The start-up sequence of lines 35-212 as an event trace.  The
`os.path.isdir` check (line 38) comes first; only when it passes is the
DICOM reader constructed, the report printed, and the rest of the toolkit
objects built in source order. -/
def script_trace (root : PathStatus) (info : DatasetInfo) (vtk_version : String) : List Ev :=
  if isdir root then
    Ev.vtkNew "vtkDICOMImageReader"
      :: (report info (folder_size_bytes root) vtk_version).map Ev.printLine
      ++ [Ev.vtkNew "vtkPiecewiseFunction", Ev.vtkNew "vtkColorTransferFunction",
          Ev.vtkNew "vtkVolumeProperty", Ev.vtkNew "vtkSmartVolumeMapper",
          Ev.vtkNew "vtkVolume", Ev.vtkNew "vtkMarchingCubes",
          Ev.vtkNew "vtkPolyDataNormals", Ev.vtkNew "vtkPolyDataMapper",
          Ev.vtkNew "vtkActor", Ev.vtkNew "vtkRenderer", Ev.vtkNew "vtkRenderer",
          Ev.vtkNew "vtkRenderer", Ev.vtkNew "vtkTextActor", Ev.vtkNew "vtkTextActor",
          Ev.vtkNew "vtkTextActor", Ev.vtkNew "vtkTextActor", Ev.vtkNew "vtkCamera",
          Ev.vtkNew "vtkRenderWindow", Ev.vtkNew "vtkRenderWindowInteractor",
          Ev.vtkNew "vtkInteractorStyleTrackballCamera"]
  else [Ev.raiseFileNotFound missing_dir_msg]

/-- The lines a trace prints, in order. -/
def printedLine : Ev → Option String
  | .printLine s => some s
  | _ => none

/-- All lines printed by a trace. -/
def printed (t : List Ev) : List String := t.filterMap printedLine

/-- `vtkPiecewiseFunction.AddPoint` / `AddRGBPoint` over a node table kept
sorted by scalar value: a point at a new scalar value is inserted in order,
a point at an existing scalar value replaces that node. -/
def addPoint {α : Type} : List (ℚ × α) → ℚ → α → List (ℚ × α)
  | [], x, y => [(x, y)]
  | (a, b) :: rest, x, y =>
    if x < a then (x, y) :: (a, b) :: rest
    else if x = a then (x, y) :: rest
    else (a, b) :: addPoint rest x y

/-- The nine `opacity.AddPoint` calls of lines 73-81, in source order. -/
def opacity_calls : List (ℚ × ℚ) :=
  [(-2048, 0.00), (-1000, 0.00), (-300, 0.00), (0, 0.03), (200, 0.08),
   (500, 0.18), (900, 0.35), (1400, 0.60), (5449, 0.85)]

/-- The node table of the opacity transfer function after the nine
`AddPoint` calls. -/
def opacity_points : List (ℚ × ℚ) :=
  opacity_calls.foldl (fun pts c => addPoint pts c.1 c.2) []

/-- Exact lookup of an inserted control point in a node table (the value
stored at a node, not interpolation between nodes). -/
def tableLookup {α : Type} (pts : List (ℚ × α)) (x : ℚ) : Option α :=
  (pts.find? (fun p => p.1 == x)).map (fun p => p.2)

/-- The coordinate system of a 2D actor's position coordinate. -/
inductive CoordinateSystem where
  | display
  | normalizedViewport
deriving Repr, DecidableEq

/-- The fields of a `vtkTextProperty` that `make_label` assigns. -/
structure TextProperty where
  fontSize : Nat
  color : ℚ × ℚ × ℚ
  bold : Bool
deriving Repr, DecidableEq

/-- The fields of a `vtkTextActor` that `make_label` assigns. -/
structure TextActor where
  input : String
  textProperty : TextProperty
  coordinateSystem : CoordinateSystem
  position : ℚ × ℚ
deriving Repr, DecidableEq

/-- `make_label` (lines 20-31): build a text actor with the given text,
font size, white bold styling, and a position in normalized viewport
coordinates.  Pure data assignment. -/
def make_label (text : String) (x y : ℚ) (font_size : Nat) : TextActor :=
  { input := text
    textProperty := { fontSize := font_size, color := (1, 1, 1), bold := true }
    coordinateSystem := .normalizedViewport
    position := (x, y) }

/-- The default `x` of `make_label`'s signature. -/
def make_label_default_x : ℚ := 0.02

/-- The default `y` of `make_label`'s signature. -/
def make_label_default_y : ℚ := 0.95

/-- The default `font_size` of `make_label`'s signature. -/
def make_label_default_font_size : Nat := 20

/-- `make_label` called with only its text, as at lines 167-169: the other
arguments take their defaults. -/
def make_label_defaults (text : String) : TextActor :=
  make_label text make_label_default_x make_label_default_y make_label_default_font_size

/-- A renderer's viewport rectangle in normalized window coordinates, as
passed to `SetViewport`. -/
structure Viewport where
  xmin : ℚ
  ymin : ℚ
  xmax : ℚ
  ymax : ℚ
deriving Repr, DecidableEq

/-- The scene state of one renderer that the window-layout claims need:
its viewport and its active camera (cameras identified by allocation
number). -/
structure SceneRenderer where
  viewport : Viewport
  activeCamera : Nat
deriving Repr, DecidableEq

/-- The one `vtkCamera` the script allocates (line 187), identified as
camera 0. -/
def shared_camera : Nat := 0

/-- The volume-only renderer: viewport of line 147, camera of line 188. -/
def volumeRenderer : SceneRenderer := ⟨⟨0, 0, 0.3333, 1⟩, shared_camera⟩

/-- The iso-surface renderer: viewport of line 148, camera of line 189. -/
def isoRenderer : SceneRenderer := ⟨⟨0.3333, 0, 0.6666, 1⟩, shared_camera⟩

/-- The combined renderer: viewport of line 149, camera of line 190. -/
def comboRenderer : SceneRenderer := ⟨⟨0.6666, 0, 1, 1⟩, shared_camera⟩

/-- The render window (lines 197-201): its fixed size and the three
renderers added to it, in order. -/
structure RenderWindow where
  width : Nat
  height : Nat
  renderers : List SceneRenderer
deriving Repr, DecidableEq

/-- The script's render window: 1800 x 800 with the three renderers. -/
def renWin : RenderWindow := ⟨1800, 800, [volumeRenderer, isoRenderer, comboRenderer]⟩

lemma walkFoldE_ok (total : Nat) (es : List Entry) :
    walkFoldE total es = .ok (total + walkSum es) := by
  induction total, es using walkFoldE.induct with
  | case1 t => simp [walkFoldE, walkSum]
  | case2 t name sz rest n hok ih =>
    cases sz with
    | ok m =>
      simp only [tryAddSize, Except.ok.injEq] at hok
      subst hok
      simp [walkFoldE, tryAddSize, walkSum, fileContribution, ih, Nat.add_assoc]
    | error e =>
      simp only [tryAddSize, Except.ok.injEq] at hok
      subst hok
      simp [walkFoldE, tryAddSize, walkSum, fileContribution, ih]
  | case3 t name sz rest a herr =>
    cases sz <;> simp [tryAddSize] at herr
  | case4 t name cs rest n hok ih1 ih2 =>
    rw [ih1] at hok
    injection hok with hn
    subst hn
    simp [walkFoldE, ih1, ih2, walkSum, Nat.add_assoc]
  | case5 t name cs rest a herr ih1 =>
    rw [ih1] at herr
    exact Except.noConfusion herr
  | case6 t name r cs rest hr ih =>
    simp only [Bool.not_eq_true] at hr
    subst hr
    simp [walkFoldE, walkSum, ih]

lemma walkSum_eq_readableSum (es : List Entry) :
    walkSum es = (readableSizes es).sum := by
  induction es using walkSum.induct with
  | case1 => simp [walkSum, readableSizes]
  | case2 name sz rest ih =>
    cases sz with
    | ok m => simp [walkSum, readableSizes, fileContribution, ih]
    | error e => simp [walkSum, readableSizes, fileContribution, ih]
  | case3 name r cs rest ih1 ih2 =>
    cases r with
    | true => simp [walkSum, readableSizes, ih1, ih2]
    | false => simp [walkSum, readableSizes, ih2]

/-- C1: `folder_size_bytes` never raises when an individual file's size
read fails: for every root, the exception-explicit run returns `.ok` of
the pure total, and on a readable directory tree that total is exactly the
sum of the sizes of the files whose read succeeds — failing files are
skipped with no other effect. -/
theorem folder_size_bytes_skips_failing_files (root : PathStatus) (es : List Entry) :
    folder_size_bytesE root = .ok (folder_size_bytes root) ∧
    folder_size_bytes (.dir true es) = (readableSizes es).sum := by
  constructor
  · cases root with
    | missing => rfl
    | regularFile sz => rfl
    | dir r cs =>
      cases r with
      | true => simp [folder_size_bytesE, folder_size_bytes, walkFoldE_ok]
      | false => rfl
  · simp [folder_size_bytes, walkSum_eq_readableSum]

/-- C3: `folder_size_bytes` returns 0 on an empty directory, and returns 0
on a directory tree whose root cannot be listed (the walk yields nothing),
whatever that tree holds. -/
theorem folder_size_bytes_empty_or_unreadable (es : List Entry) :
    folder_size_bytes (.dir true []) = 0 ∧
    folder_size_bytes (.dir false es) = 0 := by
  exact ⟨by simp [folder_size_bytes, walkSum], rfl⟩

/-- C4: `folder_size_bytes` sums recursively: a directory whose
subdirectory holds files of sizes 10, 20 and 30 bytes totals 60, and in
general a subdirectory contributes the sum of its own tree. -/
theorem folder_size_bytes_nested_sum (n : String) (cs rest : List Entry) :
    folder_size_bytes
      (.dir true
        [.dir "sub" true
          [.file "a" (.ok 10), .file "b" (.ok 20), .file "c" (.ok 30)]]) = 60 ∧
    walkSum (.dir n true cs :: rest) = walkSum cs + walkSum rest := by
  constructor
  · simp [folder_size_bytes, walkSum, fileContribution]
  · simp [walkSum]

/-- C9: on a root path that does not exist or names a regular file the
walk yields no entries: `folder_size_bytes` returns 0 and no exception
escapes. -/
theorem folder_size_bytes_nonexistent_root (sz : Except Unit Nat) :
    folder_size_bytes .missing = 0 ∧
    folder_size_bytes (.regularFile sz) = 0 ∧
    folder_size_bytesE .missing = .ok 0 ∧
    folder_size_bytesE (.regularFile sz) = .ok 0 := by
  exact ⟨rfl, rfl, rfl, rfl⟩

/-- C2: when the dataset directory is missing, start-up raises the fatal
`FileNotFoundError` naming the expected path and nothing else happens: no
toolkit object is constructed and nothing is printed. -/
theorem missing_dir_fatal_before_vtk (root : PathStatus) (info : DatasetInfo)
    (v : String) (h : isdir root = false) :
    script_trace root info v = [.raiseFileNotFound missing_dir_msg] ∧
    (∃ pre post, missing_dir_msg = pre ++ dicom_dir ++ post) ∧
    (∀ c, Ev.vtkNew c ∉ script_trace root info v) ∧
    (∀ s, Ev.printLine s ∉ script_trace root info v) := by
  refine ⟨by simp [script_trace, h], ⟨"Cannot find DICOM directory: '",
    "'. Put your DICOM slices inside this folder or update dicom_dir.", rfl⟩, ?_, ?_⟩
  · intro c
    simp [script_trace, h]
  · intro s
    simp [script_trace, h]

/-- Witness for C2 at the concrete missing root. -/
theorem missing_dir_fatal_before_vtk_witness :
    script_trace .missing ⟨"", "", "", "", ""⟩ "" =
      [.raiseFileNotFound missing_dir_msg] ∧
    (∃ pre post, missing_dir_msg = pre ++ dicom_dir ++ post) ∧
    (∀ c, Ev.vtkNew c ∉ script_trace .missing ⟨"", "", "", "", ""⟩ "") ∧
    (∀ s, Ev.printLine s ∉ script_trace .missing ⟨"", "", "", "", ""⟩ "") :=
  missing_dir_fatal_before_vtk .missing ⟨"", "", "", "", ""⟩ "" rfl

/-- C6: when the dataset directory exists the trace prints exactly the
report: a title line then the six dataset facts — dimensions, spacing,
origin, scalar range, the folder size in MB (the byte total divided by
1024*1024, rendered with two digits after the point), and the toolkit
version; and the two-decimal value is the correct rounding, within half a
hundredth of the exact quotient. -/
theorem report_prints_dataset_facts (root : PathStatus) (info : DatasetInfo)
    (v : String) (h : isdir root = true) :
    printed (script_trace root info v) = report info (folder_size_bytes root) v ∧
    report info (folder_size_bytes root) v =
      [ "Dataset Info of Cancer Cell of Brain"
      , "Dimensions (Nx, Ny, Nz): " ++ info.dims
      , "Spacing / Voxel size (sx, sy, sz): " ++ info.spacing
      , "Origin: " ++ info.origin
      , "Scalar range (min, max): (" ++ info.scalarMin ++ ", " ++ info.scalarMax ++ ")"
      , "DICOM folder size: " ++ fmtMB2 (folder_size_bytes root) ++ " MB"
      , "VTK Version: " ++ v ] ∧
    (∀ b : Nat, 2 * ((roundHalfEven (b * 100) (1024 * 1024) : Int) * (1024 * 1024)
        - (b * 100 : Int)).natAbs ≤ 1024 * 1024) := by
  refine ⟨?_, rfl, ?_⟩
  · simp only [printed, script_trace, h, if_true, List.filterMap_cons,
      List.filterMap_append, List.filterMap_map]
    simp [printedLine, Function.comp_def, List.filterMap_cons]
  · intro b
    unfold roundHalfEven
    split_ifs <;> omega

/-- Witness for C6 at a concrete existing (empty) directory. -/
theorem report_prints_dataset_facts_witness :
    printed (script_trace (.dir true []) ⟨"d", "s", "o", "lo", "hi"⟩ "9.3.0") =
      report ⟨"d", "s", "o", "lo", "hi"⟩ (folder_size_bytes (.dir true [])) "9.3.0" ∧
    report ⟨"d", "s", "o", "lo", "hi"⟩ (folder_size_bytes (.dir true [])) "9.3.0" =
      [ "Dataset Info of Cancer Cell of Brain"
      , "Dimensions (Nx, Ny, Nz): " ++ "d"
      , "Spacing / Voxel size (sx, sy, sz): " ++ "s"
      , "Origin: " ++ "o"
      , "Scalar range (min, max): (" ++ "lo" ++ ", " ++ "hi" ++ ")"
      , "DICOM folder size: " ++ fmtMB2 (folder_size_bytes (.dir true [])) ++ " MB"
      , "VTK Version: " ++ "9.3.0" ] ∧
    (∀ b : Nat, 2 * ((roundHalfEven (b * 100) (1024 * 1024) : Int) * (1024 * 1024)
        - (b * 100 : Int)).natAbs ≤ 1024 * 1024) :=
  report_prints_dataset_facts (.dir true []) ⟨"d", "s", "o", "lo", "hi"⟩ "9.3.0" rfl

/-- C5: the opacity transfer function's inserted control points are the
fixed literals of the source: exact table lookup at scalar value 0 gives
opacity 0.03 and at 1400 gives 0.60. -/
theorem opacity_control_points_exact :
    tableLookup opacity_points 0 = some 0.03 ∧
    tableLookup opacity_points 1400 = some 0.60 := by
  constructor <;> rfl

/-- C10: the opacity table is monotone: the nine calls insert strictly
increasing scalar values with non-decreasing opacities, and the resulting
node table runs from (-2048, 0.00) up to (5449, 0.85) the same way. -/
theorem opacity_table_monotone :
    List.Chain' (fun p q : ℚ × ℚ => p.1 < q.1 ∧ p.2 ≤ q.2) opacity_calls ∧
    List.Chain' (fun p q : ℚ × ℚ => p.1 < q.1 ∧ p.2 ≤ q.2) opacity_points ∧
    opacity_points.length = 9 ∧
    opacity_points.head? = some (-2048, 0.00) ∧
    opacity_points.getLast? = some (5449, 0.85) := by
  have hpts : opacity_points = opacity_calls := rfl
  refine ⟨?_, ?_, rfl, rfl, rfl⟩ <;>
    · simp [hpts, opacity_calls, List.chain'_cons]
      norm_num

/-- C7: the render window has fixed size 1800 x 800 and exactly three
viewports tiling it horizontally at x = 0, 0.3333, 0.6666, 1, each
spanning the full height, and all three renderers share camera 0, the one
`shared_camera` object. -/
theorem window_viewports_share_camera :
    (renWin.width, renWin.height) = (1800, 800) ∧
    renWin.renderers.map SceneRenderer.viewport =
      [⟨0, 0, 0.3333, 1⟩, ⟨0.3333, 0, 0.6666, 1⟩, ⟨0.6666, 0, 1, 1⟩] ∧
    (∀ r ∈ renWin.renderers, r.viewport.ymin = 0 ∧ r.viewport.ymax = 1) ∧
    volumeRenderer.viewport.xmin = 0 ∧
    volumeRenderer.viewport.xmax = isoRenderer.viewport.xmin ∧
    isoRenderer.viewport.xmax = comboRenderer.viewport.xmin ∧
    comboRenderer.viewport.xmax = 1 ∧
    (∀ r ∈ renWin.renderers, r.activeCamera = shared_camera) := by
  refine ⟨rfl, rfl, ?_, rfl, rfl, rfl, rfl, ?_⟩
  · simp [renWin, volumeRenderer, isoRenderer, comboRenderer]
  · simp [renWin, volumeRenderer, isoRenderer, comboRenderer, shared_camera]

/-- C8: `make_label` is pure data assignment: for every text and argument
values the built actor carries exactly that text, that position in
normalized viewport coordinates, that font size, white color and bold; the
defaults are x = 0.02, y = 0.95, font size 20. -/
theorem make_label_pure_assignment (text : String) (x y : ℚ) (fs : Nat) :
    (make_label text x y fs).input = text ∧
    (make_label text x y fs).position = (x, y) ∧
    (make_label text x y fs).coordinateSystem = .normalizedViewport ∧
    (make_label text x y fs).textProperty.fontSize = fs ∧
    (make_label text x y fs).textProperty.color = (1, 1, 1) ∧
    (make_label text x y fs).textProperty.bold = true ∧
    make_label_defaults text = make_label text 0.02 0.95 20 := by
  exact ⟨rfl, rfl, rfl, rfl, rfl, rfl, rfl⟩
